import Mathlib

/-!
Shallow embedding of the context-window management and streaming-response
pipeline of the chatGPT-clone backend (src/controllers/chatController.js),
together with proofs of the specified properties.

Modelling conventions:
* A chat message is its `role`, `content` and optional `imageUrl`
  (src/models/conversation.js, MessageSchema).
* The external OpenAI completion calls are parameters of the embedded
  functions: the summarization call is a function from the request messages
  to `Except String SummaryResponse` (an `Except.error` models a thrown
  network/rate-limit error), and the live streaming call is an
  `UpstreamOutcome` (the chunks received, plus whether the stream then
  raised instead of completing normally).
* The md5 digest from `crypto` is an opaque parameter `md5 : String → String`;
  every property proved about `createMessageHash` holds for an arbitrary
  digest function.
* JavaScript `Math.ceil(len / 4)` on a natural length is `(len + 3) / 4`.
* JavaScript array `slice(-n)` is `List.drop (length - n)` and
  `slice(0, -n)` is `List.take (length - n)` (Nat subtraction truncates at
  zero exactly as the JS index clamping does for short lists).
-/

namespace ChatController

/-- A message as stored in a conversation
(src/models/conversation.js, MessageSchema). -/
structure Message where
  role : String
  content : String
  imageUrl : Option String := none
deriving DecidableEq, Repr

/-- A conversation document
(src/models/conversation.js, ConversationSchema). -/
structure Conversation where
  user : String
  title : String
  messages : List Message
deriving DecidableEq, Repr

/-- The response shape of the non-streaming completion call used by the
summarizer: `summary.choices[0].message.content`
(src/controllers/chatController.js lines 46-55). -/
structure SummaryChoiceMessage where
  content : String
deriving DecidableEq, Repr

structure SummaryChoice where
  message : SummaryChoiceMessage
deriving DecidableEq, Repr

structure SummaryResponse where
  choices : List SummaryChoice
deriving DecidableEq, Repr

/-- Constant `MAX_TOKENS_PER_REQUEST = 900000` (chatController.js line 23). -/
def MAX_TOKENS_PER_REQUEST : Nat := 900000

/-- Constant `SYSTEM_MESSAGE` (chatController.js lines 24-27). -/
def SYSTEM_MESSAGE : Message :=
  { role := "system"
    content := "You are a helpful AI assistant. Respond concisely when possible." }

/-- Function `estimateTokens(text) = Math.ceil(text.length / 4)`
(chatController.js lines 30-32). -/
def estimateTokens (text : String) : Nat :=
  (text.length + 3) / 4

/-- Total estimated tokens of a message list:
`messages.reduce((sum, msg) => sum + estimateTokens(msg.content), 0)`
(chatController.js lines 68 and 90). -/
def estSum (messages : List Message) : Nat :=
  (messages.map (fun m => estimateTokens m.content)).sum

/-- Function `summarizeConversation(messages)` (chatController.js lines 35-63).
`complete` is the external `openai.chat.completions.create` call, applied to
the summary prompt; any thrown error (`Except.error`), and likewise a
response with no choices (where `summary.choices[0].message` would throw),
is caught by the `catch` block and turned into the deterministic fallback
message. -/
def summarizeConversation
    (complete : List Message → Except String SummaryResponse)
    (messages : List Message) : Message :=
  let summaryPrompt : List Message :=
    { role := "system"
      content := "Summarize the key points of this conversation history concisely, preserving important information that may be needed for future context." }
      :: messages.drop (messages.length - 20)
  match complete summaryPrompt with
  | Except.ok summary =>
    match summary.choices.head? with
    | some choice =>
      { role := "system", content := "Conversation summary: " ++ choice.message.content }
    | none =>
      { role := "system"
        content := "Previous conversation had " ++ toString messages.length ++ " messages." }
  | Except.error _ =>
    { role := "system"
      content := "Previous conversation had " ++ toString messages.length ++ " messages." }

/-- The result of `prepareMessagesForAPI`.  Besides the returned
`{ messages, totalTokens }` pair, the embedding records the final state of
the `conversation` argument (the function never assigns to it, so it is
returned unchanged) and the list of argument lists the summarizer was
invoked on, so that call counts are part of the model. -/
structure PrepareResult where
  conversation : Conversation
  messages : List Message
  totalTokens : Nat
  summarizerCalls : List (List Message)
deriving DecidableEq, Repr

/-- Function `prepareMessagesForAPI(conversation)` (chatController.js lines 66-94).
Line-by-line: copy the message list, sum estimated tokens, prepend
`SYSTEM_MESSAGE` when no message has role `system` (adding its tokens),
then, when the total exceeds the budget and there are more than 20
messages, replace everything before the last 20 by a summary. -/
def prepareMessagesForAPI
    (complete : List Message → Except String SummaryResponse)
    (conversation : Conversation) : PrepareResult :=
  let messages0 := conversation.messages
  let totalTokens0 := estSum messages0
  let hasSystem := messages0.any (fun m => m.role == "system")
  let messages1 := if hasSystem then messages0 else SYSTEM_MESSAGE :: messages0
  let totalTokens1 :=
    if hasSystem then totalTokens0
    else totalTokens0 + estimateTokens SYSTEM_MESSAGE.content
  if totalTokens1 > MAX_TOKENS_PER_REQUEST then
    -- const keepLastN = 20; const messagesToKeep = messages.slice(-keepLastN)
    let messagesToKeep := messages1.drop (messages1.length - 20)
    if messages1.length > 20 then
      let oldMessages := messages1.take (messages1.length - 20)
      let summary := summarizeConversation complete oldMessages
      -- messages = [messages.find(msg => msg.role === 'system') || SYSTEM_MESSAGE,
      --             summary, ...messagesToKeep]
      let messages2 :=
        ((messages1.find? (fun m => m.role == "system")).getD SYSTEM_MESSAGE)
          :: summary :: messagesToKeep
      { conversation := conversation
        messages := messages2
        totalTokens := estSum messages2
        summarizerCalls := [oldMessages] }
    else
      { conversation := conversation
        messages := messages1
        totalTokens := totalTokens1
        summarizerCalls := [] }
  else
    { conversation := conversation
      messages := messages1
      totalTokens := totalTokens1
      summarizerCalls := [] }

/-- The message list after the optional default-system-message prepend
(chatController.js lines 71-74): this is the list the budget test is taken
over. -/
def withSystem (messages : List Message) : List Message :=
  if messages.any (fun m => m.role == "system") then messages
  else SYSTEM_MESSAGE :: messages

/-- Function `createMessageHash(messages)` (chatController.js lines 97-101):
md5 digest of the `role:content` pairs of the last 3 messages joined
with a separator.  `md5` is the opaque digest function. -/
def createMessageHash (md5 : String → String) (messages : List Message) : String :=
  let lastFewMessages := messages.drop (messages.length - 3)
  let concatenated :=
    String.intercalate "|" (lastFewMessages.map (fun m => m.role ++ ":" ++ m.content))
  md5 concatenated

/-- JavaScript line terminators, which `.` in a regular expression without
the `s` flag does not match. -/
def isLineTerminator (c : Char) : Bool :=
  c == '\n' || c == '\r' || c == '\u2028' || c == '\u2029'

/-- Expression `cachedResponse.match(/.{1,20}/g) || []` (chatController.js line 310):
the global scan repeatedly matches maximal runs of 1 to 20
non-line-terminator characters, skipping over line terminators (which `.`
cannot match); `null` when there is no match at all becomes `[]`.
Equivalently: split on line terminators, discard empty pieces, cut each
piece into chunks of at most 20 characters. -/
def chunkCached (s : String) : List String :=
  (((s.data.splitOnP isLineTerminator).filter (fun seg => seg ≠ [])).map
      (fun seg => (seg.toChunks 20).map (fun l => String.mk l))).flatten

/-- Observable effects of one streaming chat turn, in order of occurrence:
`save m` is `conversation.save()` with message list `m`, `write p` is
`res.write("data: " + p + "\n\n")`, `upstreamCall ms` is the live
`openai.chat.completions.create({messages: ms, stream: true})`,
`cachePut k v` is `responseCache.set(k, v)`, `endStream` is `res.end()`. -/
inductive Event where
  | save (messages : List Message)
  | write (payload : String)
  | upstreamCall (messages : List Message)
  | cachePut (key : String) (value : String)
  | endStream
deriving DecidableEq, Repr

/-- Outcome of the live upstream streaming call: the non-`null` delta
contents received in order (the code skips falsy contents), and whether the
stream then raised (`errored = true`) instead of completing normally.
When the stream raises mid-way, `chunks` are the chunks received before
the raise. -/
structure UpstreamOutcome where
  chunks : List String
  errored : Bool
deriving DecidableEq, Repr

/-- Final state of one streaming chat turn: the event trace, the persisted
message list of the conversation (every modelled `save` succeeds), and the
response cache contents (an association list looked up with
`List.lookup`). -/
structure TurnResult where
  trace : List Event
  messages : List Message
  cache : List (String × String)
deriving DecidableEq, Repr

/-- Function `sendMessageStream` (chatController.js lines 271-371), from the point
where the conversation has been found, to the end of the turn.
Line-by-line: push the user message and save; hash the updated message
list; look the hash up in the cache (`responseCache.get`; a missing entry
is `undefined` and the empty string is falsy, so both take the upstream
path); on a truthy cached value replay it in regex chunks, save the
assistant message with the full cached content, and emit `[DONE]`;
otherwise prepare the API messages, stream from upstream accumulating the
received chunks, and on normal completion cache the accumulated reply,
save it as the assistant message and emit `[DONE]`, while a raised stream
error reaches the `catch` block, which emits `[ERROR]` and discards the
accumulated content. -/
def sendMessageStream (md5 : String → String)
    (complete : List Message → Except String SummaryResponse)
    (upstream : UpstreamOutcome) (cache0 : List (String × String))
    (conv : Conversation) (message : String) : TurnResult :=
  -- conversation.messages.push({ role: 'user', content: message }); await conversation.save()
  let msgs1 := conv.messages ++ [{ role := "user", content := message }]
  let messageHash := createMessageHash md5 msgs1
  -- const cachedResponse = responseCache.get(messageHash); if (cachedResponse) { ... }
  let cachedResponse := (List.lookup messageHash cache0).getD ""
  if cachedResponse ≠ "" then
    let chunks := chunkCached cachedResponse
    let msgs2 := msgs1 ++ [{ role := "assistant", content := cachedResponse }]
    { trace := Event.save msgs1 :: chunks.map Event.write
        ++ [Event.save msgs2, Event.write "[DONE]", Event.endStream]
      messages := msgs2
      cache := cache0 }
  else
    let prep := prepareMessagesForAPI complete { conv with messages := msgs1 }
    -- const content = chunk.choices[0]?.delta?.content || ''; if (content) { ... }
    let received := upstream.chunks.filter (fun c => c ≠ "")
    let assistantMessage := String.join received
    if upstream.errored then
      { trace := Event.save msgs1 :: Event.upstreamCall prep.messages
          :: received.map Event.write ++ [Event.write "[ERROR]", Event.endStream]
        messages := msgs1
        cache := cache0 }
    else
      let msgs2 := msgs1 ++ [{ role := "assistant", content := assistantMessage }]
      { trace := Event.save msgs1 :: Event.upstreamCall prep.messages
          :: received.map Event.write
          ++ [Event.cachePut messageHash assistantMessage, Event.save msgs2,
              Event.write "[DONE]", Event.endStream]
        messages := msgs2
        cache := (messageHash, assistantMessage) :: cache0 }

/-! Concrete inputs used to instantiate the theorems below. -/

/-- An external summarization call that always errors (models a network or
rate-limit failure of `openai.chat.completions.create`). -/
def completeErr : List Message → Except String SummaryResponse :=
  fun _ => Except.error "network error"

/-- A content string of `n` repeated characters. -/
def bigContent (n : Nat) : String :=
  String.mk (List.replicate n 'a')

/-- A user message whose content estimates to 1,000,000 tokens. -/
def bigUserMessage : Message :=
  { role := "user", content := bigContent 4000000 }

def smallMessage : Message :=
  { role := "user", content := "hi" }

/-- One over-budget message and no system message: 20 or fewer messages in
total, so no reduction can happen. -/
def convOverBudgetShort : Conversation :=
  { user := "user-1", title := "New Conversation", messages := [bigUserMessage] }

/-- A conversation of 21 messages, over budget, no system message: reduction happens. -/
def convOverBudgetLong : Conversation :=
  { user := "user-1", title := "New Conversation"
    messages := bigUserMessage :: List.replicate 20 smallMessage }

/-- A small conversation that already contains a system message and is far
under budget. -/
def smallConvWithSystem : Conversation :=
  { user := "user-1", title := "New Conversation"
    messages := [{ role := "system", content := "be nice" }, smallMessage] }

/-- The §8 scenario message: roles alternate user/assistant, each content is
400,000 characters (≈ 100,000 estimated tokens). -/
def scenarioMessage (i : Nat) : Message :=
  { role := if i % 2 = 0 then "user" else "assistant", content := bigContent 400000 }

/-- The §8 scenario conversation: a system message plus 25 such messages
(estimated total ≈ 2,500,016 tokens, over the 900,000 budget). -/
def scenarioConversation : Conversation :=
  { user := "user-1", title := "New Conversation"
    messages := SYSTEM_MESSAGE :: (List.range 25).map scenarioMessage }

/-! General lemmas about the embedded definitions. -/

theorem estSum_cons (m : Message) (l : List Message) :
    estSum (m :: l) = estimateTokens m.content + estSum l := by
  simp [estSum]

theorem estimateTokens_bigContent (n : Nat) :
    estimateTokens (bigContent n) = (n + 3) / 4 := by
  show ((List.replicate n 'a').length + 3) / 4 = (n + 3) / 4
  rw [List.length_replicate]

/-- Function `prepareMessagesForAPI` in terms of the system-prepended list
`withSystem`: the running total the code maintains incrementally equals
`estSum` of that list, so the three branches collapse to this form. -/
theorem prepareMessagesForAPI_eq
    (complete : List Message → Except String SummaryResponse) (c : Conversation) :
    prepareMessagesForAPI complete c =
      if estSum (withSystem c.messages) > MAX_TOKENS_PER_REQUEST then
        if (withSystem c.messages).length > 20 then
          { conversation := c
            messages :=
              ((withSystem c.messages).find? (fun m => m.role == "system")).getD SYSTEM_MESSAGE
                :: summarizeConversation complete
                    ((withSystem c.messages).take ((withSystem c.messages).length - 20))
                :: (withSystem c.messages).drop ((withSystem c.messages).length - 20)
            totalTokens := estSum
              (((withSystem c.messages).find? (fun m => m.role == "system")).getD SYSTEM_MESSAGE
                :: summarizeConversation complete
                    ((withSystem c.messages).take ((withSystem c.messages).length - 20))
                :: (withSystem c.messages).drop ((withSystem c.messages).length - 20))
            summarizerCalls := [(withSystem c.messages).take ((withSystem c.messages).length - 20)] }
        else
          { conversation := c, messages := withSystem c.messages
            totalTokens := estSum (withSystem c.messages), summarizerCalls := [] }
      else
        { conversation := c, messages := withSystem c.messages
          totalTokens := estSum (withSystem c.messages), summarizerCalls := [] } := by
  unfold prepareMessagesForAPI withSystem
  by_cases hs : c.messages.any (fun m => m.role == "system") <;>
    simp [hs, estSum_cons, Nat.add_comm]

theorem withSystem_length (msgs : List Message) :
    (withSystem msgs).length = msgs.length ∨
      (withSystem msgs).length = msgs.length + 1 := by
  unfold withSystem
  split
  · exact Or.inl rfl
  · exact Or.inr (List.length_cons _ _)

/-- Dropping all but the last 20 of the possibly system-prepended list gives
the last 20 of the original list, provided the prepended list is longer
than 20. -/
theorem withSystem_drop_twenty (msgs : List Message)
    (h : (withSystem msgs).length > 20) :
    (withSystem msgs).drop ((withSystem msgs).length - 20)
      = msgs.drop (msgs.length - 20) := by
  unfold withSystem at *
  split at h
  · rename_i hs
    simp [hs]
  · rename_i hs
    have hlen : msgs.length ≥ 20 := by
      simp only [List.length_cons] at h
      omega
    have harith : (SYSTEM_MESSAGE :: msgs).length - 20 = (msgs.length - 20) + 1 := by
      simp only [List.length_cons]
      omega
    simp only [hs, if_neg, Bool.false_eq_true, not_false_eq_true, harith,
      List.drop_succ_cons]

theorem withSystem_ge_twenty (msgs : List Message)
    (h : (withSystem msgs).length > 20) : msgs.length ≥ 20 := by
  rcases withSystem_length msgs with h2 | h2 <;> omega

/-- C3: if the external summarization call errors (for every prompt it is
given), `summarizeConversation` does not raise to its caller and returns a
system-role message "Previous conversation had N messages." where N is the
number of messages passed in. -/
theorem summarize_fallback_on_error
    (complete : List Message → Except String SummaryResponse)
    (messages : List Message)
    (h : ∀ prompt, ∃ e, complete prompt = Except.error e) :
    summarizeConversation complete messages =
      { role := "system"
        content := "Previous conversation had " ++ toString messages.length ++ " messages." } := by
  simp only [summarizeConversation]
  obtain ⟨e, he⟩ := h _
  rw [he]

/-- C3 witness: a concrete always-erroring call on a 2-message history
yields the fallback system message naming 2 messages. -/
theorem summarize_fallback_on_error_witness :
    (∀ prompt, ∃ e, completeErr prompt = Except.error e) ∧
      summarizeConversation completeErr
          [{ role := "user", content := "hello" }, { role := "assistant", content := "hi there" }]
        = { role := "system", content := "Previous conversation had 2 messages." } := by
  refine ⟨fun _ => ⟨"network error", rfl⟩, ?_⟩
  rw [summarize_fallback_on_error completeErr _ (fun _ => ⟨"network error", rfl⟩)]
  rfl

/-- C4: `createMessageHash` is a deterministic function of only the trailing
3 `(role, content)` pairs: two histories agreeing there (for any digest
function) hash identically, whatever came before. -/
theorem hash_depends_only_on_last_three (md5 : String → String)
    (A B : List Message)
    (h : (A.drop (A.length - 3)).map (fun m => (m.role, m.content))
        = (B.drop (B.length - 3)).map (fun m => (m.role, m.content))) :
    createMessageHash md5 A = createMessageHash md5 B := by
  have h2 := congrArg (List.map (fun p : String × String => p.1 ++ ":" ++ p.2)) h
  simp only [List.map_map, Function.comp_def] at h2
  simp only [createMessageHash]
  rw [h2]

/-- C4 witness: a 4-message history and the 3-message history obtained by
removing its first message agree on the last 3 pairs and hash alike. -/
theorem hash_depends_only_on_last_three_witness :
    (([{ role := "system", content := "sys" }, { role := "user", content := "q1" },
        { role := "assistant", content := "a1" }, { role := "user", content := "q2" }]
          : List Message).drop 1).map (fun m => (m.role, m.content))
      = (([{ role := "user", content := "q1" }, { role := "assistant", content := "a1" },
          { role := "user", content := "q2" }] : List Message).drop 0).map
          (fun m => (m.role, m.content)) ∧
    createMessageHash id
        [{ role := "system", content := "sys" }, { role := "user", content := "q1" },
          { role := "assistant", content := "a1" }, { role := "user", content := "q2" }]
      = createMessageHash id
        [{ role := "user", content := "q1" }, { role := "assistant", content := "a1" },
          { role := "user", content := "q2" }] := by
  refine ⟨by decide, hash_depends_only_on_last_three id _ _ (by decide)⟩

/-- C7: `prepareMessagesForAPI` never mutates the stored conversation: the
conversation component of the result (the final state of the
`conversation` argument, to which the function never assigns) is the input
conversation, every field included. -/
theorem prepare_leaves_conversation_unchanged
    (complete : List Message → Except String SummaryResponse) (c : Conversation) :
    (prepareMessagesForAPI complete c).conversation = c ∧
      (prepareMessagesForAPI complete c).conversation.messages = c.messages := by
  rw [prepareMessagesForAPI_eq]
  refine ⟨?_, ?_⟩ <;> (repeat' split) <;> rfl

/-! Token arithmetic on the concrete inputs. -/

theorem est_system_message : estimateTokens SYSTEM_MESSAGE.content = 16 := by decide

theorem est_small_message : estimateTokens smallMessage.content = 1 := by decide

theorem est_bigUserMessage : estimateTokens bigUserMessage.content = 1000000 := by
  show estimateTokens (bigContent 4000000) = 1000000
  rw [estimateTokens_bigContent]

theorem withSystem_convOverBudgetShort :
    withSystem convOverBudgetShort.messages = [SYSTEM_MESSAGE, bigUserMessage] := by
  have hany : convOverBudgetShort.messages.any (fun m => m.role == "system") = false := by
    decide
  unfold withSystem
  rw [hany]
  simp [convOverBudgetShort]

theorem estSum_convOverBudgetShort :
    estSum [SYSTEM_MESSAGE, bigUserMessage] = 1000016 := by
  rw [estSum_cons, estSum_cons, est_system_message, est_bigUserMessage]
  simp [estSum]

theorem estSum_convOverBudgetShort_orig :
    estSum convOverBudgetShort.messages = 1000000 := by
  show estSum [bigUserMessage] = 1000000
  rw [estSum_cons, est_bigUserMessage]
  simp [estSum]

/-- C1 counterexample: `convOverBudgetShort` (a single 4,000,000-character
user message, no system message) is over budget but has at most 20
messages, so `prepareMessagesForAPI` returns it (with the default system
message prepended) unreduced: the returned list estimates to 1,000,016
tokens, above the 900,000 budget, while the original was not under budget
either — both disjuncts of the claim fail. -/
theorem budget_invariant_counterexample :
    ¬ (estSum (prepareMessagesForAPI completeErr convOverBudgetShort).messages
          ≤ MAX_TOKENS_PER_REQUEST
        ∨ (estSum convOverBudgetShort.messages ≤ MAX_TOKENS_PER_REQUEST
            ∧ (prepareMessagesForAPI completeErr convOverBudgetShort).messages
                = convOverBudgetShort.messages)) := by
  have hprep : (prepareMessagesForAPI completeErr convOverBudgetShort).messages
      = [SYSTEM_MESSAGE, bigUserMessage] := by
    rw [prepareMessagesForAPI_eq, withSystem_convOverBudgetShort, estSum_convOverBudgetShort]
    rw [if_pos (by norm_num [MAX_TOKENS_PER_REQUEST])]
    rw [if_neg (by decide)]
  rintro (h1 | ⟨h2, _⟩)
  · rw [hprep, estSum_convOverBudgetShort] at h1
    norm_num [MAX_TOKENS_PER_REQUEST] at h1
  · rw [estSum_convOverBudgetShort_orig] at h2
    norm_num [MAX_TOKENS_PER_REQUEST] at h2

/-- C1 (amended): whenever the estimated total of the conversation's
messages, after prepending the default system message when none is
present, is at or under the 900,000 budget, `prepareMessagesForAPI`
returns exactly that list with that total — in particular the original
message list itself when it already contains a system message.  (When the
total exceeds the budget the returned list's estimated total may itself
exceed the budget: see the counterexample.) -/
theorem prepare_identity_under_budget
    (complete : List Message → Except String SummaryResponse) (c : Conversation)
    (h : estSum (withSystem c.messages) ≤ MAX_TOKENS_PER_REQUEST) :
    (prepareMessagesForAPI complete c).messages = withSystem c.messages
    ∧ (prepareMessagesForAPI complete c).totalTokens = estSum (withSystem c.messages)
    ∧ (c.messages.any (fun m => m.role == "system") = true →
        (prepareMessagesForAPI complete c).messages = c.messages) := by
  rw [prepareMessagesForAPI_eq,
    if_neg (by omega : ¬ estSum (withSystem c.messages) > MAX_TOKENS_PER_REQUEST)]
  refine ⟨rfl, rfl, fun hs => ?_⟩
  simp [withSystem, hs]

/-- C1 witness: a tiny under-budget conversation that already has a system
message comes back unchanged. -/
theorem prepare_identity_under_budget_witness :
    estSum (withSystem smallConvWithSystem.messages) ≤ MAX_TOKENS_PER_REQUEST
    ∧ (prepareMessagesForAPI completeErr smallConvWithSystem).messages
        = smallConvWithSystem.messages :=
  ⟨by decide,
    (prepare_identity_under_budget completeErr smallConvWithSystem (by decide)).2.2 (by decide)⟩

/-- C2: whenever the prepared list is reduced by summarization (estimated
total over budget and more than 20 messages), the returned list is the
retained system message, then the summary, then — verbatim and in order —
the last 20 messages of the original conversation; the second conjunct
checks that suffix really is the full last-20 window. -/
theorem reduction_keeps_last_twenty
    (complete : List Message → Except String SummaryResponse) (c : Conversation)
    (h1 : estSum (withSystem c.messages) > MAX_TOKENS_PER_REQUEST)
    (h2 : (withSystem c.messages).length > 20) :
    (prepareMessagesForAPI complete c).messages
      = ((withSystem c.messages).find? (fun m => m.role == "system")).getD SYSTEM_MESSAGE
        :: summarizeConversation complete
            ((withSystem c.messages).take ((withSystem c.messages).length - 20))
        :: c.messages.drop (c.messages.length - 20)
    ∧ (c.messages.drop (c.messages.length - 20)).length = 20 := by
  rw [prepareMessagesForAPI_eq, if_pos h1, if_pos h2]
  refine ⟨?_, ?_⟩
  · show _ :: _ :: (withSystem c.messages).drop ((withSystem c.messages).length - 20) = _
    rw [withSystem_drop_twenty c.messages h2]
  · rw [List.length_drop]
    have := withSystem_ge_twenty c.messages h2
    omega

theorem estSum_convOverBudgetLong :
    estSum (withSystem convOverBudgetLong.messages) = 1000036 := by
  have hany : convOverBudgetLong.messages.any (fun m => m.role == "system") = false := by
    decide
  unfold withSystem
  rw [hany]
  show estSum (SYSTEM_MESSAGE :: bigUserMessage :: List.replicate 20 smallMessage) = 1000036
  rw [estSum_cons, estSum_cons, est_system_message, est_bigUserMessage]
  simp [estSum, List.map_replicate, List.sum_replicate, est_small_message]

/-- C2 witness: 21 messages (one 4,000,000-character message then 20 small
ones, no system message) trigger reduction, and the prepared list ends
with exactly those last 20 messages. -/
theorem reduction_keeps_last_twenty_witness :
    estSum (withSystem convOverBudgetLong.messages) > MAX_TOKENS_PER_REQUEST
    ∧ (withSystem convOverBudgetLong.messages).length > 20
    ∧ ((prepareMessagesForAPI completeErr convOverBudgetLong).messages
        = ((withSystem convOverBudgetLong.messages).find? (fun m => m.role == "system")).getD
            SYSTEM_MESSAGE
          :: summarizeConversation completeErr
              ((withSystem convOverBudgetLong.messages).take
                ((withSystem convOverBudgetLong.messages).length - 20))
          :: convOverBudgetLong.messages.drop (convOverBudgetLong.messages.length - 20)
        ∧ (convOverBudgetLong.messages.drop (convOverBudgetLong.messages.length - 20)).length
            = 20) := by
  have h1 : estSum (withSystem convOverBudgetLong.messages) > MAX_TOKENS_PER_REQUEST := by
    rw [estSum_convOverBudgetLong]
    norm_num [MAX_TOKENS_PER_REQUEST]
  have h2 : (withSystem convOverBudgetLong.messages).length > 20 := by
    have hany : convOverBudgetLong.messages.any (fun m => m.role == "system") = false := by
      decide
    unfold withSystem
    rw [hany]
    decide
  exact ⟨h1, h2, reduction_keeps_last_twenty completeErr convOverBudgetLong h1 h2⟩

/-! The §8 over-budget scenario (C9). -/

theorem withSystem_scenario :
    withSystem scenarioConversation.messages = scenarioConversation.messages := by
  unfold withSystem
  rw [show scenarioConversation.messages.any (fun m => m.role == "system") = true by decide]
  simp

theorem scenario_length : scenarioConversation.messages.length = 26 := by
  simp [scenarioConversation]

theorem est_scenarioMessage (i : Nat) :
    estimateTokens (scenarioMessage i).content = 100000 := by
  show estimateTokens (bigContent 400000) = 100000
  rw [estimateTokens_bigContent]

theorem estSum_scenarioTail : estSum ((List.range 25).map scenarioMessage) = 2500000 := by
  have hrepl : ((List.range 25).map scenarioMessage).map (fun m => estimateTokens m.content)
      = List.replicate 25 100000 := by
    rw [List.eq_replicate_iff]
    constructor
    · simp
    · intro b hb
      obtain ⟨m, hm, rfl⟩ := List.mem_map.mp hb
      obtain ⟨i, _, rfl⟩ := List.mem_map.mp hm
      exact est_scenarioMessage i
  unfold estSum
  rw [hrepl, List.sum_replicate, smul_eq_mul]

theorem estSum_scenario : estSum scenarioConversation.messages = 2500016 := by
  show estSum (SYSTEM_MESSAGE :: (List.range 25).map scenarioMessage) = 2500016
  rw [estSum_cons, est_system_message, estSum_scenarioTail]

theorem scenario_find_system :
    scenarioConversation.messages.find? (fun m => m.role == "system")
      = some SYSTEM_MESSAGE := by
  show List.find? _ (SYSTEM_MESSAGE :: _) = _
  rw [List.find?_cons_of_pos]
  decide

/-- C9 counterexample: on the §8 scenario conversation (a system message
plus 25 messages of 400,000 characters each) the prepared list does not
have length 3 — it has the system message, the summary, and all 20 tail
messages. -/
theorem scenario_prepared_length_counterexample :
    (prepareMessagesForAPI completeErr scenarioConversation).messages.length ≠ 3 := by
  rw [prepareMessagesForAPI_eq, withSystem_scenario, estSum_scenario, scenario_length,
    scenario_find_system]
  norm_num [MAX_TOKENS_PER_REQUEST]
  rw [scenario_length]
  norm_num

/-- C9 (amended): on the §8 scenario conversation the summarizer is invoked
exactly once, on the overflow (the 6 messages before the last 20), and the
prepared list is system message, summary, then the 20 tail messages — 22
messages in all (2 + min(20, tail size)), not 3. -/
theorem scenario_one_summarizer_call :
    (prepareMessagesForAPI completeErr scenarioConversation).summarizerCalls
      = [scenarioConversation.messages.take 6]
    ∧ (prepareMessagesForAPI completeErr scenarioConversation).messages
      = SYSTEM_MESSAGE
        :: summarizeConversation completeErr (scenarioConversation.messages.take 6)
        :: scenarioConversation.messages.drop 6
    ∧ (prepareMessagesForAPI completeErr scenarioConversation).messages.length = 22 := by
  refine ⟨?_, ?_, ?_⟩ <;>
    rw [prepareMessagesForAPI_eq, withSystem_scenario, estSum_scenario, scenario_length,
      scenario_find_system] <;>
    norm_num [MAX_TOKENS_PER_REQUEST]
  rw [scenario_length]

/-! Path characterizations of one streaming chat turn. -/

/-- Cache-hit path (chatController.js lines 304-328). -/
theorem sendMessageStream_hit_eq (md5 : String → String)
    (complete : List Message → Except String SummaryResponse)
    (upstream : UpstreamOutcome) (cache0 : List (String × String))
    (conv : Conversation) (message : String)
    (hhit : (List.lookup
        (createMessageHash md5 (conv.messages ++ [{ role := "user", content := message }]))
        cache0).getD "" ≠ "") :
    sendMessageStream md5 complete upstream cache0 conv message =
      { trace := Event.save (conv.messages ++ [{ role := "user", content := message }])
          :: (chunkCached ((List.lookup
                (createMessageHash md5
                  (conv.messages ++ [{ role := "user", content := message }]))
                cache0).getD "")).map Event.write
          ++ [Event.save ((conv.messages ++ [{ role := "user", content := message }])
                ++ [{ role := "assistant"
                      content := (List.lookup
                        (createMessageHash md5
                          (conv.messages ++ [{ role := "user", content := message }]))
                        cache0).getD "" }]),
              Event.write "[DONE]", Event.endStream]
        messages := (conv.messages ++ [{ role := "user", content := message }])
          ++ [{ role := "assistant"
                content := (List.lookup
                  (createMessageHash md5
                    (conv.messages ++ [{ role := "user", content := message }]))
                  cache0).getD "" }]
        cache := cache0 } := by
  simp only [sendMessageStream]
  rw [if_pos hhit]

/-- Upstream-error path (chatController.js lines 358-364): the catch block
emits `[ERROR]`, and neither a cache write nor an assistant save happens. -/
theorem sendMessageStream_error_eq (md5 : String → String)
    (complete : List Message → Except String SummaryResponse)
    (upstream : UpstreamOutcome) (cache0 : List (String × String))
    (conv : Conversation) (message : String)
    (hmiss : (List.lookup
        (createMessageHash md5 (conv.messages ++ [{ role := "user", content := message }]))
        cache0).getD "" = "")
    (herr : upstream.errored = true) :
    sendMessageStream md5 complete upstream cache0 conv message =
      { trace := Event.save (conv.messages ++ [{ role := "user", content := message }])
          :: Event.upstreamCall (prepareMessagesForAPI complete
              { conv with messages := conv.messages ++ [{ role := "user", content := message }] }).messages
          :: (upstream.chunks.filter (fun c => c ≠ "")).map Event.write
          ++ [Event.write "[ERROR]", Event.endStream]
        messages := conv.messages ++ [{ role := "user", content := message }]
        cache := cache0 } := by
  simp only [sendMessageStream]
  rw [hmiss, herr]
  simp

/-- Upstream-success path (chatController.js lines 331-357). -/
theorem sendMessageStream_success_eq (md5 : String → String)
    (complete : List Message → Except String SummaryResponse)
    (upstream : UpstreamOutcome) (cache0 : List (String × String))
    (conv : Conversation) (message : String)
    (hmiss : (List.lookup
        (createMessageHash md5 (conv.messages ++ [{ role := "user", content := message }]))
        cache0).getD "" = "")
    (hok : upstream.errored = false) :
    sendMessageStream md5 complete upstream cache0 conv message =
      { trace := Event.save (conv.messages ++ [{ role := "user", content := message }])
          :: (Event.upstreamCall (prepareMessagesForAPI complete
                { conv with messages := conv.messages ++ [{ role := "user", content := message }] }).messages
              :: (upstream.chunks.filter (fun c => c ≠ "")).map Event.write
              ++ [Event.cachePut
                    (createMessageHash md5 (conv.messages ++ [{ role := "user", content := message }]))
                    (String.join (upstream.chunks.filter (fun c => c ≠ "")))])
          ++ [Event.save ((conv.messages ++ [{ role := "user", content := message }])
                ++ [{ role := "assistant"
                      content := String.join (upstream.chunks.filter (fun c => c ≠ "")) }]),
              Event.write "[DONE]", Event.endStream]
        messages := (conv.messages ++ [{ role := "user", content := message }])
          ++ [{ role := "assistant"
                content := String.join (upstream.chunks.filter (fun c => c ≠ "")) }]
        cache := (createMessageHash md5 (conv.messages ++ [{ role := "user", content := message }]),
            String.join (upstream.chunks.filter (fun c => c ≠ ""))) :: cache0 } := by
  simp only [sendMessageStream]
  rw [hmiss, hok]
  simp

/-- C5 (code bug evidence): on a cache hit for the cached content
`"a\nb"`, the chunks relayed to the client are `"a"` then `"b"` — the
regex `/.{1,20}/g` skips the newline — so their concatenation is `"ab"`,
not the cached content, while the assistant message persisted afterwards
carries the full cached content `"a\nb"`.  The streamed bytes and the
persisted message therefore disagree on this input. -/
theorem cache_replay_drops_newlines :
    (sendMessageStream id completeErr { chunks := [], errored := false }
        [("user:hi", "a\nb")] { user := "u", title := "t", messages := [] } "hi").trace
      = [Event.save [{ role := "user", content := "hi" }],
          Event.write "a", Event.write "b",
          Event.save [{ role := "user", content := "hi" },
            { role := "assistant", content := "a\nb" }],
          Event.write "[DONE]", Event.endStream]
    ∧ String.join [("a" : String), "b"] = "ab"
    ∧ ("ab" : String) ≠ "a\nb"
    ∧ (sendMessageStream id completeErr { chunks := [], errored := false }
        [("user:hi", "a\nb")] { user := "u", title := "t", messages := [] } "hi").messages
      = [{ role := "user", content := "hi" }, { role := "assistant", content := "a\nb" }] := by
  refine ⟨?_, by decide, by decide, ?_⟩ <;> decide

/-- C6: if the upstream stream raises after emitting any chunks (and the
cache missed, as on this path), the turn leaves the conversation with only
the user's message: no assistant message is persisted, the cache is
unchanged and no cache write event occurs, and the `[ERROR]` sentinel is
emitted. -/
theorem upstream_error_discards_turn (md5 : String → String)
    (complete : List Message → Except String SummaryResponse)
    (upstream : UpstreamOutcome) (cache0 : List (String × String))
    (conv : Conversation) (message : String)
    (hmiss : (List.lookup
        (createMessageHash md5 (conv.messages ++ [{ role := "user", content := message }]))
        cache0).getD "" = "")
    (herr : upstream.errored = true) :
    (sendMessageStream md5 complete upstream cache0 conv message).messages
        = conv.messages ++ [{ role := "user", content := message }]
    ∧ (sendMessageStream md5 complete upstream cache0 conv message).cache = cache0
    ∧ Event.write "[ERROR]" ∈ (sendMessageStream md5 complete upstream cache0 conv message).trace
    ∧ (∀ k v, Event.cachePut k v ∉
        (sendMessageStream md5 complete upstream cache0 conv message).trace)
    ∧ (∀ m, Event.save m ∈ (sendMessageStream md5 complete upstream cache0 conv message).trace
        → m = conv.messages ++ [{ role := "user", content := message }]) := by
  rw [sendMessageStream_error_eq md5 complete upstream cache0 conv message hmiss herr]
  refine ⟨rfl, rfl, ?_, ?_, ?_⟩
  · simp
  · intro k v
    simp
  · intro m hm
    simp only [List.mem_cons, List.mem_append, List.mem_map] at hm
    rcases hm with h | h | ⟨a, _, h⟩ | h | h | h <;> simp_all

/-- C6 witness: a concrete erroring turn on an empty cache. -/
theorem upstream_error_discards_turn_witness :
    ((List.lookup
        (createMessageHash id (([] : List Message) ++ [{ role := "user", content := "hi" }]))
        ([] : List (String × String))).getD "" = ""
    ∧ ({ chunks := ["x", "y"], errored := true } : UpstreamOutcome).errored = true)
    ∧ ((sendMessageStream id completeErr { chunks := ["x", "y"], errored := true } []
          { user := "u", title := "t", messages := [] } "hi").messages
        = ([] : List Message) ++ [{ role := "user", content := "hi" }]
      ∧ (sendMessageStream id completeErr { chunks := ["x", "y"], errored := true } []
          { user := "u", title := "t", messages := [] } "hi").cache = []
      ∧ Event.write "[ERROR]" ∈ (sendMessageStream id completeErr
          { chunks := ["x", "y"], errored := true } []
          { user := "u", title := "t", messages := [] } "hi").trace
      ∧ (∀ k v, Event.cachePut k v ∉ (sendMessageStream id completeErr
          { chunks := ["x", "y"], errored := true } []
          { user := "u", title := "t", messages := [] } "hi").trace)
      ∧ (∀ m, Event.save m ∈ (sendMessageStream id completeErr
          { chunks := ["x", "y"], errored := true } []
          { user := "u", title := "t", messages := [] } "hi").trace
          → m = ([] : List Message) ++ [{ role := "user", content := "hi" }])) :=
  ⟨⟨by decide, rfl⟩,
    upstream_error_discards_turn id completeErr { chunks := ["x", "y"], errored := true } []
      { user := "u", title := "t", messages := [] } "hi" (by decide) rfl⟩

/-- C8: in every turn, the very first observable event is the save that
persists the user's message — before any content is written to the client —
and the only other save, when one happens, appends a single complete
assistant message and is followed only by the `[DONE]` sentinel and the
close of the stream: the assistant message is never persisted
incrementally. -/
theorem user_persisted_first_assistant_saved_once (md5 : String → String)
    (complete : List Message → Except String SummaryResponse)
    (upstream : UpstreamOutcome) (cache0 : List (String × String))
    (conv : Conversation) (message : String) :
    ∃ body,
      (sendMessageStream md5 complete upstream cache0 conv message).trace
        = Event.save (conv.messages ++ [{ role := "user", content := message }]) :: body
      ∧ ((∀ m, Event.save m ∉ body)
        ∨ ∃ c ws, body = ws
              ++ [Event.save ((conv.messages ++ [{ role := "user", content := message }])
                    ++ [{ role := "assistant", content := c }]),
                  Event.write "[DONE]", Event.endStream]
            ∧ ∀ m, Event.save m ∉ ws) := by
  by_cases hmiss : (List.lookup
      (createMessageHash md5 (conv.messages ++ [{ role := "user", content := message }]))
      cache0).getD "" = ""
  · cases herr : upstream.errored
    · rw [sendMessageStream_success_eq md5 complete upstream cache0 conv message hmiss herr]
      refine ⟨_, rfl, Or.inr ?_⟩
      refine ⟨_, _, rfl, ?_⟩
      intro m
      simp
    · rw [sendMessageStream_error_eq md5 complete upstream cache0 conv message hmiss herr]
      refine ⟨_, rfl, Or.inl ?_⟩
      intro m
      simp
  · rw [sendMessageStream_hit_eq md5 complete upstream cache0 conv message hmiss]
    refine ⟨_, rfl, Or.inr ?_⟩
    refine ⟨_, _, rfl, ?_⟩
    intro m
    simp

/-- C10: when the cache holds the empty string under the turn's
fingerprint, the JavaScript truthiness test fails and the turn takes the
upstream path: a live completion call is issued even though a cache entry
exists for that fingerprint. -/
theorem empty_cached_entry_goes_upstream (md5 : String → String)
    (complete : List Message → Except String SummaryResponse)
    (upstream : UpstreamOutcome) (cache0 : List (String × String))
    (conv : Conversation) (message : String)
    (hempty : List.lookup
        (createMessageHash md5 (conv.messages ++ [{ role := "user", content := message }]))
        cache0 = some "") :
    Event.upstreamCall (prepareMessagesForAPI complete
        { conv with messages := conv.messages ++ [{ role := "user", content := message }] }).messages
      ∈ (sendMessageStream md5 complete upstream cache0 conv message).trace := by
  have hmiss : (List.lookup
      (createMessageHash md5 (conv.messages ++ [{ role := "user", content := message }]))
      cache0).getD "" = "" := by
    rw [hempty]
    rfl
  cases herr : upstream.errored
  · rw [sendMessageStream_success_eq md5 complete upstream cache0 conv message hmiss herr]
    simp
  · rw [sendMessageStream_error_eq md5 complete upstream cache0 conv message hmiss herr]
    simp

/-- C10 witness: a cache that maps the turn's fingerprint (digest function
`id`) to the empty string still leads to a live upstream call. -/
theorem empty_cached_entry_goes_upstream_witness :
    List.lookup (createMessageHash id (([] : List Message)
        ++ [{ role := "user", content := "hi" }])) [("user:hi", "")] = some ""
    ∧ Event.upstreamCall (prepareMessagesForAPI completeErr
        { user := "u", title := "t",
          messages := ([] : List Message) ++ [{ role := "user", content := "hi" }] }).messages
      ∈ (sendMessageStream id completeErr { chunks := ["x"], errored := false }
          [("user:hi", "")] { user := "u", title := "t", messages := [] } "hi").trace :=
  ⟨by decide,
    empty_cached_entry_goes_upstream id completeErr { chunks := ["x"], errored := false }
      [("user:hi", "")] { user := "u", title := "t", messages := [] } "hi" (by decide)⟩

end ChatController
